import Mathlib

/-
Verification development for the schema-validation engine of the repository
(`plugins/component_caching.py`, with its sibling variant
`src/lib/component_validation.py` noted in comments where the two differ).

The shallow embedding below mirrors the module-level code of
`plugins/component_caching.py`:

  * `Json`                    - the `Json` type alias (line 10); Python `bool`
                                is a distinct constructor because `isinstance`
                                distinguishes it, Python floats are carried as
                                rationals (only their runtime type and order
                                matter to the validator).
  * `compare_versions`        - lines 16-32.
  * `is_valid_with_attributes`- lines 35-58.
  * `Node` / `StructField`    - the pydantic schema classes (lines 86-288):
                                `Schema.root` is `Option Node`, one constructor
                                per `*Schema` class; the enum and literal kinds
                                are not modelled (no property here concerns
                                them).
  * `Schema.prune_on_version` - lines 279-285, `StructSchema.prune_on_version`
                                - lines 209-221.
  * `resolve_schema_reference`- lines 297-309.
  * `validate_data`           - lines 312-717, with a fuel parameter standing
                                in for Python's recursion limit (exhausted fuel
                                becomes `Exc.recursionError`, which like
                                Python's `RecursionError` is not caught by the
                                `except (ValidationError, ExceptionGroup)`
                                handlers).

Single-quote characters that the source places around interpolated values in
error messages are omitted from the modelled message strings; nothing proved
here depends on message text beyond equality of the modelled strings.
-/

/-- JSON-like document values, mirroring `type Json = dict | list | str | int | float | bool | None`.
Python `bool` is kept separate from `int` because `isinstance` checks
distinguish them (and `bool` is a subclass of `int`, reflected in
`isIntInstance` below). Float payloads are rationals: the validator only uses
their runtime tag and ordering. -/
inductive Json where
  | null
  | b (value : Bool)
  | i (value : Int)
  | f (value : Rat)
  | s (value : String)
  | arr (items : List Json)
  | obj (entries : List (String × Json))

/-- Lookup in a Python dict modelled as an insertion-ordered association list. -/
def dictGet {α : Type} : List (String × α) → String → Option α
  | [], _ => none
  | (k, v) :: rest, key => if k = key then some v else dictGet rest key

/-- `DynamicIndex` (lines 245-247): the accessor chain of a dispatcher index. -/
structure DynamicIndex where
  accessor : List Json

/-- Literal payloads (`StringLiteralValue` / `IntLiteralValue` / `BooleanLiteralValue`,
lines 89-101). -/
inductive LiteralValue where
  | str (value : String)
  | int (value : Int)
  | bool (value : Bool)

/-- The value of an `Attribute` (line 126): a `LiteralSchema`, or one of the
reference / tree / dispatcher shapes, which the pruning pass treats as inert
and are therefore collapsed into one constructor. -/
inductive AttrValue where
  | literal (value : LiteralValue)
  | nonLiteral

/-- `Attribute` (lines 123-126). -/
structure Attribute where
  name : String
  value : Option AttrValue

/-- `ValueRange` (lines 129-134). -/
structure ValueRange where
  kind : Int
  min : Option Int
  max : Option Int

mutual

/-- One constructor per concrete `*Schema` class admitted in `Schema.root`
(lines 262-277). Where the source stores a `Schema` (a `RootModel` whose
`root` may be `None`), the embedding stores `Option Node`. -/
inductive Node where
  | reference (path : String) (attributes : Option (List Attribute))
  | union (members : List (Option Node)) (attributes : Option (List Attribute))
  | list (item : Option Node) (length_range : Option ValueRange) (attributes : Option (List Attribute))
  | int_array (length_range : Option ValueRange) (attributes : Option (List Attribute))
  | float_array (length_range : Option ValueRange) (attributes : Option (List Attribute))
  | string (attributes : Option (List Attribute))
  | int (value_range : Option ValueRange) (attributes : Option (List Attribute))
  | float (value_range : Option ValueRange) (attributes : Option (List Attribute))
  | boolean (attributes : Option (List Attribute))
  | struct (fields : List StructField) (attributes : Option (List Attribute))
  | dispatcher (parallel_indices : List DynamicIndex) (registry : String) (attributes : Option (List Attribute))

/-- `PairField` / `SpreadField` (lines 190-202). `desc` is inert metadata and
omitted. -/
inductive StructField where
  | pair (key : PairKey) (type : Option Node) (optional : Bool) (attributes : Option (List Attribute))
  | spread (type : Option Node)

/-- `PairField.key : Union[str, Schema]` (line 192). -/
inductive PairKey where
  | str (k : String)
  | schemaKey (s : Option Node)

end

/-- `Schema` (lines 262-288): a `RootModel` whose `root` is one of the node
classes or `None`; the embedding identifies a `Schema` with its `root`. -/
abbrev Schema := Option Node

/-- Every `*Schema` class carries an `attributes` field; this is the common
projection used by `Schema.prune_on_version`. -/
def Node.attributes : Node → Option (List Attribute)
  | .reference _ a => a
  | .union _ a => a
  | .list _ _ a => a
  | .int_array _ a => a
  | .float_array _ a => a
  | .string a => a
  | .int _ a => a
  | .float _ a => a
  | .boolean a => a
  | .struct _ a => a
  | .dispatcher _ _ a => a

/-- The `VERSION` constant (line 13). -/
def VERSION : String := "1.21.8"

/-- Python `v.split(".")`, written as structural recursion over the character
list so that the kernel can evaluate it. -/
def splitOnDot : List Char → List Char → List (List Char)
  | [], acc => [acc.reverse]
  | c :: rest, acc =>
    if c = '.' then acc.reverse :: splitOnDot rest [] else splitOnDot rest (c :: acc)

/-- Accumulating decimal digit parser. -/
def digitsToNat : List Char → Nat → Nat
  | [], n => n
  | c :: rest, n => digitsToNat rest (n * 10 + (c.toNat - 48))

/-- Python `int(part)` on a version component: an optional sign followed by
decimal digits. Modelled totally (it agrees with Python on every numeric
component, and all versions considered here are numeric). -/
def parseIntComp : List Char → Int
  | '-' :: rest => -(digitsToNat rest 0 : Int)
  | cs => (digitsToNat cs 0 : Int)

/-- Dot-separated numeric components of a version string:
`(int(part) for part in v.split("."))` (lines 17-18). -/
def versionComponents (v : String) : List Int :=
  (splitOnDot v.data []).map parseIntComp

/-- `if len(v) < 2: v.append(0)` (lines 20-24): pad with a single zero when
fewer than two components remain after the epoch is dropped. -/
def padTo2 (l : List Int) : List Int :=
  if l.length < 2 then l ++ [0] else l

/-- Python tuple comparison, as used by `tuple(v1) > tuple(v2)` (lines 26-32):
lexicographic left-to-right; a strict prefix compares less than the longer
tuple. -/
def tupleCmp : List Int → List Int → Int
  | [], [] => 0
  | [], _ :: _ => -1
  | _ :: _, [] => 1
  | a :: as, b :: bs => if b < a then 1 else if a < b then -1 else tupleCmp as bs

/-- `compare_versions` (lines 16-32): drop the leading epoch component
(`_, *v = ...`), pad to at least two components with one zero, then Python
tuple comparison. -/
def compare_versions (v1 v2 : String) : Int :=
  tupleCmp (padTo2 ((versionComponents v1).drop 1)) (padTo2 ((versionComponents v2).drop 1))

/-- Loop body of `is_valid_with_attributes` (lines 44-58): walk the attribute
list; an `until` attribute with a string-literal version invalidates when
`compare_versions(current, until) >= 0`; a `since` attribute invalidates when
`compare_versions(current, since) < 0`; everything else is skipped. -/
def is_valid_go (current_version : String) : List Attribute → Bool
  | [] => true
  | a :: rest =>
    if a.name = "until" then
      match a.value with
      | some (.literal (.str u)) =>
        if 0 ≤ compare_versions current_version u then false
        else is_valid_go current_version rest
      | _ => is_valid_go current_version rest
    else if a.name = "since" then
      match a.value with
      | some (.literal (.str sv)) =>
        if compare_versions current_version sv < 0 then false
        else is_valid_go current_version rest
      | _ => is_valid_go current_version rest
    else is_valid_go current_version rest

/-- `is_valid_with_attributes` (lines 35-58). `if not attributes: return True`
covers both `None` and the empty list. -/
def is_valid_with_attributes (attributes : Option (List Attribute)) (current_version : String) : Bool :=
  match attributes with
  | none => true
  | some [] => true
  | some attrs => is_valid_go current_version attrs

/-- `Schema.prune_on_version` (lines 279-285): keep the root iff it is not
`None` and its attributes pass `is_valid_with_attributes`; otherwise the root
degrades to `None`. The source uses the module default `VERSION` as the
current version; the version is explicit here. -/
def Schema.prune_on_version (s : Schema) (current_version : String) : Schema :=
  match s with
  | some node =>
    if is_valid_with_attributes node.attributes current_version then some node else none
  | none => none

/-- `StructSchema.prune_on_version` (lines 209-221): keep a `PairField` iff its
attributes pass `is_valid_with_attributes`; every non-pair field (i.e. a
spread) is kept unconditionally. The source uses the module default `VERSION`;
the version is explicit here. -/
def StructSchema.prune_on_version (fields : List StructField) (current_version : String) : List StructField :=
  fields.filter fun field =>
    match field with
    | .pair _ _ _ attributes => is_valid_with_attributes attributes current_version
    | _ => true

/-- Keep-rule written from the specification text for claim C5: a node or
field is kept iff for every attribute named `until` carrying a string-literal
version V the target is strictly below V, and for every attribute named
`since` carrying V the target is at least V. -/
def claimKeepAttr (current_version : String) (a : Attribute) : Bool :=
  if a.name = "until" then
    match a.value with
    | some (.literal (.str v)) => if compare_versions current_version v < 0 then true else false
    | _ => true
  else if a.name = "since" then
    match a.value with
    | some (.literal (.str v)) => if 0 ≤ compare_versions current_version v then true else false
    | _ => true
  else true

/-- Keep-rule over an optional attribute list, from the specification text for
claim C5. -/
def claimKeepRule (attributes : Option (List Attribute)) (current_version : String) : Bool :=
  (attributes.getD []).all (claimKeepAttr current_version)

/-- Zero-pad a component list on the right up to length `n`. -/
def padWithZeros (l : List Int) (n : Nat) : List Int :=
  l ++ List.replicate (n - l.length) 0

/-- Comparison rule written from the specification text for claim C6: numeric,
dot-separated, left-to-right, first (epoch) component discarded, missing
trailing components treated as 0 (i.e. both component lists zero-padded to a
common length). -/
def claimCompareRule (v1 v2 : String) : Int :=
  let l1 := (versionComponents v1).drop 1
  let l2 := (versionComponents v2).drop 1
  let n := max l1.length l2.length
  tupleCmp (padWithZeros l1 n) (padWithZeros l2 n)

/-- Path elements for error reporting: `path: list[str | int]` (line 67). -/
inductive PathEl where
  | key (k : String)
  | idx (n : Int)

/-- Python `type(x).__name__` for the runtime types a `Json` value can take,
as interpolated into error messages. -/
def typeName : Json → String
  | .null => "NoneType"
  | .b _ => "bool"
  | .i _ => "int"
  | .f _ => "float"
  | .s _ => "str"
  | .arr _ => "list"
  | .obj _ => "dict"

/-- Python `str(x)`, used for dispatcher key extraction and message
interpolation. Scalars are rendered faithfully; the renderings of floats and
composites are stand-ins (the validator only ever feeds this into a registry
lookup or a message, and every property proved here exercises the scalar
cases). -/
def pyStr : Json → String
  | .null => "None"
  | .b true => "True"
  | .b false => "False"
  | .i n => toString n
  | .f _ => "float"
  | .s v => v
  | .arr _ => "list"
  | .obj _ => "dict"

def pathElStr : PathEl → String
  | .key k => k
  | .idx n => toString n

/-- Python `".".join(map(str, path))`. -/
def pathJoin (path : List PathEl) : String :=
  String.intercalate "." (path.map pathElStr)

/-- The exceptions the validator can raise. `vErr` is the custom
`ValidationError(message, path, schema_kind)` (lines 61-83); `group` is
`ExceptionGroup`; `valueError` is the `ValueError` raised for a duplicate
spread (a schema-definition error); `typeError` is the `TypeError` raised by
`isinstance(item)` called with a single argument; `keyError` / `nameError`
are the exceptions escaping the resolver handlers; `recursionError` stands
for Python exhausting its recursion limit. -/
inductive Exc where
  | vErr (msg : String) (path : List PathEl) (kind : String)
  | group (msg : String) (errs : List Exc)
  | valueError (msg : String)
  | typeError
  | keyError
  | nameError
  | recursionError

/-- Which exceptions the `except (ValidationError, ExceptionGroup)` handlers
catch; everything else propagates through the aggregating loops. -/
def Exc.catchable : Exc → Bool
  | .vErr _ _ _ => true
  | .group _ _ => true
  | _ => false

/-- A recursive call either succeeded or failed with a catchable exception. -/
def okOrCatchable : Except Exc Unit → Bool
  | .ok _ => true
  | .error e => e.catchable

/-- A raw corpus entry, as `resolve_schema_reference` sees it: either a raw
definition that `Schema.model_validate` decodes (and version-prunes) to a
given `Schema`, a plain mapping from discriminant strings to raw definitions
(a dispatcher registry: it carries no `kind` discriminator, so
`Schema.model_validate` rejects it), or an otherwise malformed entry. -/
inductive Raw where
  | schemaLike (s : Schema)
  | registryMap (entries : List (String × Raw))
  | malformed

/-- `Schema.model_validate`: succeeds exactly on schema-shaped raw entries;
the unit error stands for the pydantic validation failure the source catches. -/
def Schema.model_validate : Raw → Except Unit Schema
  | .schemaLike s => .ok s
  | .registryMap _ => .error ()
  | .malformed => .error ()

abbrev Corpus := List (String × Raw)

/-- `resolve_schema_reference` (lines 297-309). On a present-but-undecodable
entry the handler prints a diagnostic and the function returns the dummy
`Schema.model_construct(None)`. On an ABSENT path, `mcdoc[path]` raises
`KeyError`; the `except` handler then evaluates `print(json.dumps(mcdoc[path]))`,
which raises `KeyError` again, and that second `KeyError` escapes the handler
and propagates to the caller. -/
def resolve_schema_reference (mcdoc : Corpus) (path : String) : Except Exc Schema :=
  match dictGet mcdoc path with
  | none => .error .keyError
  | some raw =>
    match Schema.model_validate raw with
    | .ok s => .ok s
    | .error _ => .ok none

/-- The parsed symbol document held by `McdocValidator`
(`src/lib/component_validation.py`): the `"mcdoc"` mapping consulted by
`get_mcdoc_schema` and the `"mcdoc/dispatcher"` mapping consulted by
`get_dispatcher_schema`. -/
structure McdocFile where
  mcdoc : Corpus
  dispatchers : List (String × List (String × Raw))

/-- `McdocValidator.get_mcdoc_schema` (component_validation.py lines 59-73).
On an absent path the subscript raises `KeyError` before the walrus
assignment binds `data`; the handler then evaluates `json.dumps(data)` with
`data` unbound, raising `NameError`, which escapes. On a
present-but-undecodable entry it returns the dummy schema. -/
def get_mcdoc_schema (m : McdocFile) (path : String) : Except Exc Schema :=
  match dictGet m.mcdoc path with
  | none => .error .nameError
  | some raw =>
    match Schema.model_validate raw with
    | .ok s => .ok s
    | .error _ => .ok none

/-- Result of `McdocValidator.get_dispatcher_schema`: either the decoded
registry mapping, or the dummy `Schema.model_construct(None)` the except path
returns where a mapping was expected. -/
inductive DispatcherResolution where
  | registry (entries : List (String × Schema))
  | dummy

/-- The dict comprehension of `get_dispatcher_schema`: decode every value, or
fail on the first undecodable one. -/
def decodeRegistryEntries : List (String × Raw) → Option (List (String × Schema))
  | [] => some []
  | (k, raw) :: rest =>
    match Schema.model_validate raw with
    | .ok s =>
      match decodeRegistryEntries rest with
      | some tail => some ((k, s) :: tail)
      | none => none
    | .error _ => none

/-- `McdocValidator.get_dispatcher_schema` (component_validation.py lines
75-91): absent path => `KeyError` caught, handler reads the still-unbound
`data` => `NameError` escapes; present path whose values all decode => the
registry mapping; any undecodable value => the dummy schema returned where a
mapping was expected. -/
def get_dispatcher_schema (m : McdocFile) (path : String) : Except Exc DispatcherResolution :=
  match dictGet m.dispatchers path with
  | none => .error .nameError
  | some entries =>
    match decodeRegistryEntries entries with
    | some decoded => .ok (.registry decoded)
    | none => .ok .dummy

/-- Maximum half of the length-range check shared by the list and array
branches (lines 376-381 and copies). -/
def lengthCheckMax (len : Nat) (r : ValueRange) (path : List PathEl) : Except Exc Unit :=
  match r.max with
  | some m =>
    if m < (len : Int) then
      .error (.vErr ("List length " ++ toString len ++ " is greater than maximum allowed " ++ toString m) path "list")
    else .ok ()
  | none => .ok ()

/-- Length-range check of the list and array branches (lines 368-381; the
array branches repeat it verbatim, including the "list" schema kind). -/
def lengthCheck (len : Nat) (lr : Option ValueRange) (path : List PathEl) : Except Exc Unit :=
  match lr with
  | none => .ok ()
  | some r =>
    match r.min with
    | some m =>
      if (len : Int) < m then
        .error (.vErr ("List length " ++ toString len ++ " is less than minimum required " ++ toString m) path "list")
      else lengthCheckMax len r path
    | none => lengthCheckMax len r path

/-- `isinstance(data, int)`: also true for Python `bool` (a subclass of `int`). -/
def isIntInstance : Json → Bool
  | .i _ => true
  | .b _ => true
  | _ => false

/-- `isinstance(data, (int, float))`. -/
def isNumInstance : Json → Bool
  | .i _ => true
  | .b _ => true
  | .f _ => true
  | _ => false

/-- Numeric value of an int-like `Json` (Python `bool` compares as 0 / 1). -/
def intVal : Json → Int
  | .i n => n
  | .b true => 1
  | .b false => 0
  | _ => 0

/-- Numeric value of a number-like `Json`. -/
def ratVal : Json → Rat
  | .i n => (n : Rat)
  | .b true => 1
  | .b false => 0
  | .f q => q
  | _ => 0

def intRangeMax (data : Json) (r : ValueRange) (path : List PathEl) : Except Exc Unit :=
  match r.max with
  | some m =>
    if m < intVal data then
      .error (.vErr ("Integer value " ++ pyStr data ++ " is greater than maximum allowed " ++ toString m) path "int")
    else .ok ()
  | none => .ok ()

/-- Value-range check of the `IntSchema` branch (lines 479-491). -/
def intRange (data : Json) (vr : Option ValueRange) (path : List PathEl) : Except Exc Unit :=
  match vr with
  | none => .ok ()
  | some r =>
    match r.min with
    | some m =>
      if intVal data < m then
        .error (.vErr ("Integer value " ++ pyStr data ++ " is less than minimum allowed " ++ toString m) path "int")
      else intRangeMax data r path
    | none => intRangeMax data r path

def floatRangeMax (data : Json) (r : ValueRange) (path : List PathEl) : Except Exc Unit :=
  match r.max with
  | some m =>
    if (m : Rat) < ratVal data then
      .error (.vErr ("Number value " ++ pyStr data ++ " is greater than maximum allowed " ++ toString m) path "float")
    else .ok ()
  | none => .ok ()

/-- Value-range check of the `FloatSchema` branch (lines 501-513). -/
def floatRange (data : Json) (vr : Option ValueRange) (path : List PathEl) : Except Exc Unit :=
  match vr with
  | none => .ok ()
  | some r =>
    match r.min with
    | some m =>
      if ratVal data < (m : Rat) then
        .error (.vErr ("Number value " ++ pyStr data ++ " is less than minimum allowed " ++ toString m) path "float")
      else floatRangeMax data r path
    | none => floatRangeMax data r path

/-- Union-member loop (lines 343-360): try members left to right, return on
the first success, collect catchable failures, and when every member failed
raise one `ExceptionGroup` over all of them (or the no-members
`ValidationError` when the member list was empty). Uncatchable exceptions
from a member propagate immediately. -/
def unionGo (v : Schema → Except Exc Unit) (total : Nat) (path : List PathEl) :
    List Schema → List Exc → Except Exc Unit
  | [], errs =>
    if errs.isEmpty then
      .error (.vErr "UnionSchema has no members to validate against." path "union")
    else
      .error (.group ("Data failed to validate against any of the " ++ toString total ++ " union members") errs)
  | m :: rest, errs =>
    match v m with
    | .ok () => .ok ()
    | .error e => if e.catchable then unionGo v total path rest (errs ++ [e]) else .error e

/-- List-item loop (lines 383-392): validate every element, collect catchable
failures, aggregate at the end. -/
def listItemsGo (v : Nat → Json → Except Exc Unit) : Nat → List Json → List Exc → Except Exc Unit
  | _, [], errs =>
    if errs.isEmpty then .ok ()
    else .error (.group "Multiple items in list failed validation" errs)
  | i, x :: xs, errs =>
    match v i x with
    | .ok () => listItemsGo v (i + 1) xs errs
    | .error e => if e.catchable then listItemsGo v (i + 1) xs (errs ++ [e]) else .error e

/-- `IntArraySchema` / `FloatArraySchema` branches (lines 394-466). Both
behave identically: after the list and length checks, the per-item guard
evaluates `isinstance(item)` with a single argument, which raises `TypeError`
before any comparison happens; `TypeError` is not among the caught exception
classes, so validating any non-empty array crashes on its first element, and
an empty array passes. -/
def arrayCase (data : Json) (lr : Option ValueRange) (path : List PathEl) : Except Exc Unit :=
  match data with
  | .arr items =>
    (match lengthCheck items.length lr path with
     | .error e => .error e
     | .ok () =>
       match items with
       | [] => .ok ()
       | _ :: _ => .error .typeError)
  | _ => .error (.vErr ("Expected a list, got " ++ typeName data) path "list")

/-- Message of the duplicate-spread `ValueError` (lines 562-565). -/
def dupSpreadMsg (path : List PathEl) : String :=
  "StructSchema at " ++ pathJoin path ++ " contains multiple SpreadFields, which is ambiguous."

/-- Field loop of the `StructSchema` branch (lines 532-567), threading the
`remaining_keys` / `spread_schema` / `has_spread_field` / `struct_errors`
state. A pair whose key is itself a schema is skipped with a printed warning
(lines 535-539). Note that `remaining_keys.discard(field_key)` runs only
after the recursive `validate_data` call succeeds, so a present-but-invalid
key stays in `remaining_keys` (the sibling `McdocValidator.validate_data`
discards before validating). A second spread field raises `ValueError`,
which no handler in the validator catches. Python's `remaining_keys` is a
`set` with unspecified iteration order; it is modelled in insertion order,
and nothing proved here depends on more than its membership and size. -/
def structFieldsGo (vd : Json → Schema → List PathEl → Except Exc Unit)
    (entries : List (String × Json)) (path : List PathEl) :
    List StructField → List String → Option Schema → Bool → List Exc →
    Except Exc (List String × Option Schema × List Exc)
  | [], remaining, spread, _, errs => .ok (remaining, spread, errs)
  | .pair (.schemaKey _) _ _ _ :: rest, remaining, spread, hasSpread, errs =>
    structFieldsGo vd entries path rest remaining spread hasSpread errs
  | .pair (.str k) ty opt _ :: rest, remaining, spread, hasSpread, errs =>
    (match dictGet entries k with
     | some v =>
       (match vd v ty (path ++ [.key k]) with
        | .ok () => structFieldsGo vd entries path rest (remaining.erase k) spread hasSpread errs
        | .error e =>
          if e.catchable then
            structFieldsGo vd entries path rest remaining spread hasSpread (errs ++ [e])
          else .error e)
     | none =>
       if opt then structFieldsGo vd entries path rest remaining spread hasSpread errs
       else
         structFieldsGo vd entries path rest remaining spread hasSpread
           (errs ++ [.vErr ("Missing required field " ++ k) (path ++ [.key k]) "struct"]))
  | .spread ty :: rest, remaining, _spread, hasSpread, errs =>
    if hasSpread then .error (.valueError (dupSpreadMsg path))
    else structFieldsGo vd entries path rest remaining (some ty) true errs

/-- Spread pass over the remaining keys (lines 570-575). The `keyError`
branch mirrors `data[key]`, though keys taken from the data itself are always
present. -/
def spreadGo (v : Json → List PathEl → Except Exc Unit) (entries : List (String × Json))
    (path : List PathEl) : List String → List Exc → Except Exc (List Exc)
  | [], errs => .ok errs
  | k :: ks, errs =>
    match dictGet entries k with
    | none => .error .keyError
    | some v0 =>
      match v v0 (path ++ [.key k]) with
      | .ok () => spreadGo v entries path ks errs
      | .error e => if e.catchable then spreadGo v entries path ks (errs ++ [e]) else .error e

/-- Remaining-keys pass (lines 569-582): validate every leftover key against
the spread schema when one exists, otherwise add one `Unexpected field` error
per leftover key. -/
def remainingPass (vd : Json → Schema → List PathEl → Except Exc Unit)
    (entries : List (String × Json)) (path : List PathEl)
    (remaining : List String) (spread : Option Schema) (errs : List Exc) :
    Except Exc (List Exc) :=
  if remaining.isEmpty then .ok errs
  else
    match spread with
    | some sp => spreadGo (fun v p => vd v sp p) entries path remaining errs
    | none =>
      .ok (errs ++ remaining.map fun k => .vErr ("Unexpected field " ++ k) (path ++ [.key k]) "struct")

/-- Accessor walk of one dispatcher index (lines 633-656): each step is a key
lookup when the current value is a dict and the part is a present string key,
or an in-bounds integer index when the current value is a list; any other
combination raises the could-not-access `ValidationError`. -/
def accessorWalk (path : List PathEl) (i : Nat) : Nat → List Json → Json → Except Exc Json
  | _, [], cur => .ok cur
  | j, part :: rest, cur =>
    let failure : Except Exc Json :=
      .error (.vErr ("Could not access part " ++ pyStr part ++ " in data for dispatcher key extraction")
        (path ++ [.key ("parallelIndices[" ++ toString i ++ "].accessor[" ++ toString j ++ "]")])
        "dispatcher")
    match cur, part with
    | .obj entries, .s k =>
      (match dictGet entries k with
       | some v => accessorWalk path i (j + 1) rest v
       | none => failure)
    | .arr items, .i n =>
      if h : 0 ≤ n ∧ n.toNat < items.length then
        accessorWalk path i (j + 1) rest (items.get ⟨n.toNat, h.2⟩)
      else failure
    | _, _ => failure

/-- Outer extraction loop over the parallel indices (lines 630-668): a
successful walk contributes `str(value)` to the extracted keys, a failed one
contributes its error. -/
def extractGo (walk : Nat → List Json → Except Exc Json) :
    Nat → List DynamicIndex → List String → List Exc → List String × List Exc
  | _, [], keys, errs => (keys, errs)
  | i, idx :: rest, keys, errs =>
    match walk i idx.accessor with
    | .ok v => extractGo walk (i + 1) rest (keys ++ [pyStr v]) errs
    | .error e => extractGo walk (i + 1) rest keys (errs ++ [e])

/-- Python `type(x).__name__` on a `Schema.root` value, as interpolated into
the dispatcher registry error message. -/
def rootTypeName : Schema → String
  | none => "NoneType"
  | some (.reference _ _) => "ReferenceSchema"
  | some (.union _ _) => "UnionSchema"
  | some (.list _ _ _) => "ListSchema"
  | some (.int_array _ _) => "IntArraySchema"
  | some (.float_array _ _) => "FloatArraySchema"
  | some (.string _) => "StringSchema"
  | some (.int _ _) => "IntSchema"
  | some (.float _ _) => "FloatSchema"
  | some (.boolean _) => "BooleanSchema"
  | some (.struct _ _) => "StructSchema"
  | some (.dispatcher _ _ _) => "DispatcherSchema"

/-- One dispatch step of `validate_data` on a non-`None` schema root
(lines 338-717), parameterised by the recursive validator `vd` (which the
caller supplies with one unit of fuel consumed). -/
def runNode (vd : Json → Schema → List PathEl → Except Exc Unit) (mcdoc : Corpus)
    (data : Json) (node : Node) (path : List PathEl) : Except Exc Unit :=
  match node with
  | .reference ref_path _ =>
    (match resolve_schema_reference mcdoc ref_path with
     | .error e => .error e
     | .ok s => vd data s path)
  | .union members _ => unionGo (fun m => vd data m path) members.length path members []
  | .list item lr _ =>
    (match data with
     | .arr items =>
       (match lengthCheck items.length lr path with
        | .error e => .error e
        | .ok () => listItemsGo (fun i x => vd x item (path ++ [.idx (Int.ofNat i)])) 0 items [])
     | _ => .error (.vErr ("Expected a list, got " ++ typeName data) path "list"))
  | .int_array lr _ => arrayCase data lr path
  | .float_array lr _ => arrayCase data lr path
  | .string _ =>
    (match data with
     | .s _ => .ok ()
     | _ => .error (.vErr ("Expected a string, got " ++ typeName data) path "string"))
  | .int vr _ =>
    if isIntInstance data then intRange data vr path
    else .error (.vErr ("Expected an integer, got " ++ typeName data) path "int")
  | .float vr _ =>
    if isNumInstance data then floatRange data vr path
    else .error (.vErr ("Expected a number (int or float), got " ++ typeName data) path "float")
  | .boolean _ =>
    (match data with
     | .b _ => .ok ()
     | _ => .error (.vErr ("Expected a boolean, got " ++ typeName data) path "boolean"))
  | .struct fields _ =>
    (match data with
     | .obj entries =>
       (match structFieldsGo vd entries path fields (entries.map Prod.fst) none false [] with
        | .error e => .error e
        | .ok (remaining, spread, errs) =>
          match remainingPass vd entries path remaining spread errs with
          | .error e => .error e
          | .ok errs2 =>
            if errs2.isEmpty then .ok ()
            else .error (.group "Multiple errors in struct validation" errs2))
     | _ => .error (.vErr ("Expected a dictionary, got " ++ typeName data) path "struct"))
  | .dispatcher parallel_indices registry _ =>
    (match data with
     | .obj _ =>
       (match extractGo (fun i acc => accessorWalk path i 0 acc data) 0 parallel_indices [] [] with
        | ([], aerrs) =>
          if aerrs.isEmpty then
            .error (.vErr "No dispatcher key could be extracted from parallel indices." path "dispatcher")
          else
            .error (.group "Failed to extract a dispatcher key from any parallel index" aerrs)
        | (_ :: _, _) =>
          match resolve_schema_reference mcdoc registry with
          | .error e => .error e
          | .ok resolved =>
            -- `Schema.root` is one of the node classes or `None` - never a
            -- Python `dict` - so the guard `isinstance(resolved.root, dict)`
            -- at line 690 is false for every value `resolve_schema_reference`
            -- can return, and the registry lookup plus recursion below it
            -- (lines 697-717) are unreachable.
            .error (.vErr ("Registry " ++ registry ++ " must resolve to a Schema whose root is a dictionary of schemas, got " ++ rootTypeName resolved ++ ".") path "dispatcher"))
     | _ => .error (.vErr ("Expected a dictionary for dispatcher, got " ++ typeName data) path "dispatcher"))

/-- `validate_data` (lines 312-717). A schema whose root is `None` matches no
case of the source's `match` statement and the function returns without
raising, whatever the data. The `fuel` parameter stands in for Python's
recursion limit: each level of recursion into a non-`None` schema consumes
one unit, and exhausting it raises the uncatchable `recursionError` just as
Python would raise `RecursionError`. -/
def validate_data (mcdoc : Corpus) : Nat → Json → Schema → List PathEl → Except Exc Unit
  | _, _, none, _ => .ok ()
  | 0, _, some _, _ => .error .recursionError
  | fuel + 1, data, some node, path =>
    runNode (fun d s p => validate_data mcdoc fuel d s p) mcdoc data node path

/-- Number of spread fields in a struct schema's field list. -/
def countSpreads (fields : List StructField) : Nat :=
  fields.countP fun f =>
    match f with
    | .spread _ => true
    | _ => false

/-- Every string-keyed pair field whose key is present in the data validates
with at most a catchable error under the given recursive validator. This is
the precondition under which the struct field loop is guaranteed to reach a
duplicate spread. -/
def pairsOkB (vd : Json → Schema → List PathEl → Except Exc Unit)
    (entries : List (String × Json)) (path : List PathEl) (fields : List StructField) : Bool :=
  fields.all fun f =>
    match f with
    | .pair (.str k) ty _ _ =>
      (match dictGet entries k with
       | some v => okOrCatchable (vd v ty (path ++ [.key k]))
       | none => true)
    | _ => true

/-- A required string field carrying `until: "1.20"`. -/
def untilField : StructField :=
  .pair (.str "legacy") (some (.string none)) false
    (some [⟨"until", some (.literal (.str "1.20"))⟩])

/-- A required string field carrying `since: "1.21"`. -/
def sinceField : StructField :=
  .pair (.str "modern") (some (.string none)) false
    (some [⟨"since", some (.literal (.str "1.21"))⟩])

/-- A field list with two spread fields: a schema-authoring error. -/
def dupFields : List StructField :=
  [.spread (some (.string none)), .spread (some (.string none))]

/-- A struct schema containing two spread fields. -/
def dupSpreadStruct : Schema := some (.struct dupFields none)

/-- A struct schema with no fields: it accepts exactly the empty dict. -/
def emptyStruct : Schema := some (.struct [] none)

/-- `Struct` with two required `Int` fields `a` and `b`. -/
def twoFieldStruct : Schema :=
  some (.struct
    [.pair (.str "a") (some (.int none none)) false none,
     .pair (.str "b") (some (.int none none)) false none] none)

/-- `Struct` with the required `Int` field `a` and a `String` spread. -/
def spreadStruct : Schema :=
  some (.struct
    [.pair (.str "a") (some (.int none none)) false none,
     .spread (some (.string none))] none)

/-- A corpus holding one dispatcher registry with entries for `zombie` and
`skeleton`, stored as the registry mapping `resolve_schema_reference` will
fail to decode into a `Schema`. -/
def entityCorpus : Corpus :=
  [("test:entity", .registryMap
    [("zombie", .schemaLike (some (.boolean none))),
     ("skeleton", .schemaLike (some (.string none)))])]

/-- A dispatcher with the single dynamic accessor `["type"]` over the
`test:entity` registry. -/
def entityDispatcher : Schema :=
  some (.dispatcher [⟨[.s "type"]⟩] "test:entity" none)

/-- A schema root carrying `since: "99.99"`, version-pruned at the configured
`VERSION`: the result is the `None` (absent) root. -/
def prunedMember : Schema :=
  Schema.prune_on_version (some (.string (some [⟨"since", some (.literal (.str "99.99"))⟩]))) VERSION

/-- Python tuple comparison of a tuple with itself is equality. -/
theorem tupleCmp_self (t : List Int) : tupleCmp t t = 0 := by
  induction t with
  | nil => rfl
  | cons a as ih => simp [tupleCmp, ih, lt_irrefl]

/-- Appending the same suffix to two equal-length tuples does not change their
comparison. -/
theorem tupleCmp_append_same (a : List Int) :
    ∀ (b t : List Int), a.length = b.length → tupleCmp (a ++ t) (b ++ t) = tupleCmp a b := by
  induction a with
  | nil =>
    intro b t h
    cases b with
    | nil => simp [tupleCmp, tupleCmp_self]
    | cons y ys => simp at h
  | cons x xs ih =>
    intro b t h
    cases b with
    | nil => simp at h
    | cons y ys =>
      have hlen : xs.length = ys.length := by simpa using h
      simp only [List.cons_append, tupleCmp]
      by_cases h1 : y < x
      · simp [h1]
      · simp only [if_neg h1]
        by_cases h2 : x < y
        · simp [h2]
        · simp [h2, ih ys t hlen]

/-- Whenever the one-zero padding of the source produces lists of equal
length, it agrees with the specification's pad-to-common-length rule. -/
theorem padTo2_cmp_eq_claim (a b : List Int) (h : (padTo2 a).length = (padTo2 b).length) :
    tupleCmp (padTo2 a) (padTo2 b) =
      tupleCmp (padWithZeros a (max a.length b.length)) (padWithZeros b (max a.length b.length)) := by
  by_cases ha : a.length < 2
  · by_cases hb : b.length < 2
    · have hlen : a.length = b.length := by
        simp [padTo2, ha, hb] at h
        omega
      have hna : max a.length b.length - a.length = 0 := by omega
      have hnb : max a.length b.length - b.length = 0 := by omega
      simp [padTo2, ha, hb, padWithZeros, hna, hnb, tupleCmp_append_same a b [0] hlen]
    · have hb2 : b.length = 2 := by
        simp [padTo2, ha, hb] at h
        omega
      have ha1 : a.length = 1 := by
        simp [padTo2, ha, hb] at h
        omega
      have hmax : max a.length b.length = 2 := by omega
      have hna : max a.length b.length - a.length = 1 := by omega
      have hnb : max a.length b.length - b.length = 0 := by omega
      simp [padTo2, ha, hb, padWithZeros, hna, hnb]
  · by_cases hb : b.length < 2
    · have ha2 : a.length = 2 := by
        simp [padTo2, ha, hb] at h
        omega
      have hb1 : b.length = 1 := by
        simp [padTo2, ha, hb] at h
        omega
      have hna : max a.length b.length - a.length = 0 := by omega
      have hnb : max a.length b.length - b.length = 1 := by omega
      simp [padTo2, ha, hb, padWithZeros, hna, hnb]
    · have hlen : a.length = b.length := by
        simp [padTo2, ha, hb] at h
        omega
      have hna : max a.length b.length - a.length = 0 := by omega
      have hnb : max a.length b.length - b.length = 0 := by omega
      simp [padTo2, ha, hb, padWithZeros, hna, hnb]

/-- The attribute loop of `is_valid_with_attributes` computes exactly the
specification's per-attribute keep rule, folded with `&&`. -/
theorem is_valid_go_eq_all (cv : String) (attrs : List Attribute) :
    is_valid_go cv attrs = attrs.all (claimKeepAttr cv) := by
  induction attrs with
  | nil => rfl
  | cons a rest ih =>
    by_cases hu : a.name = "until"
    · rcases hval : a.value with _ | av
      · simp [is_valid_go, claimKeepAttr, hu, hval, ih]
      · rcases av with lv | _
        · rcases lv with u | n | bv
          · by_cases hc : 0 ≤ compare_versions cv u
            · have hnc : ¬ compare_versions cv u < 0 := by omega
              simp [is_valid_go, claimKeepAttr, hu, hval, hc, hnc]
            · have hc2 : compare_versions cv u < 0 := by omega
              simp [is_valid_go, claimKeepAttr, hu, hval, hc, hc2, ih]
          · simp [is_valid_go, claimKeepAttr, hu, hval, ih]
          · simp [is_valid_go, claimKeepAttr, hu, hval, ih]
        · simp [is_valid_go, claimKeepAttr, hu, hval, ih]
    · by_cases hs : a.name = "since"
      · rcases hval : a.value with _ | av
        · simp [is_valid_go, claimKeepAttr, hu, hs, hval, ih]
        · rcases av with lv | _
          · rcases lv with u | n | bv
            · by_cases hc : compare_versions cv u < 0
              · have hnc : ¬ 0 ≤ compare_versions cv u := by omega
                simp [is_valid_go, claimKeepAttr, hu, hs, hval, hc, hnc]
              · have hc2 : 0 ≤ compare_versions cv u := by omega
                simp [is_valid_go, claimKeepAttr, hu, hs, hval, hc, hc2, ih]
            · simp [is_valid_go, claimKeepAttr, hu, hs, hval, ih]
            · simp [is_valid_go, claimKeepAttr, hu, hs, hval, ih]
          · simp [is_valid_go, claimKeepAttr, hu, hs, hval, ih]
      · simp [is_valid_go, claimKeepAttr, hu, hs, ih]

/-- A schema whose root is `None` validates anything: it matches no case of
the `match` statement, at any remaining recursion depth. -/
theorem validate_none (mcdoc : Corpus) (fuel : Nat) (data : Json) (path : List PathEl) :
    validate_data mcdoc fuel data none path = .ok () := by
  cases fuel <;> rfl

/-- Unfolding of `validate_data` on a non-`None` schema with fuel to spare. -/
theorem validate_succ_node (mcdoc : Corpus) (fuel : Nat) (data : Json) (node : Node)
    (path : List PathEl) :
    validate_data mcdoc (fuel + 1) data (some node) path =
      runNode (fun d s p => validate_data mcdoc fuel d s p) mcdoc data node path := by
  rfl

/-- If every member before `m` yields success or a catchable error and `m`
validates, the union loop returns success, whatever errors were accumulated. -/
theorem unionGo_reaches_ok (v : Schema → Except Exc Unit) (total : Nat) (path : List PathEl) :
    ∀ (pre : List Schema) (m : Schema) (post : List Schema) (errs : List Exc),
      (pre.all fun x => okOrCatchable (v x)) = true → v m = .ok () →
      unionGo v total path (pre ++ m :: post) errs = .ok () := by
  intro pre
  induction pre with
  | nil =>
    intro m post errs _ hm
    simp [unionGo, hm]
  | cons x xs ih =>
    intro m post errs hall hm
    simp only [List.all_cons, Bool.and_eq_true] at hall
    obtain ⟨hx, hxs⟩ := hall
    cases hvx : v x with
    | ok u =>
      cases u
      simp [unionGo, hvx]
    | error e =>
      have hc : e.catchable = true := by simpa [okOrCatchable, hvx] using hx
      simp only [List.cons_append, unionGo, hvx, hc, if_true]
      exact ih m post (errs ++ [e]) hxs hm

/-- A pair field does not change the spread count. -/
theorem countSpreads_cons_pair (k : PairKey) (ty : Schema) (o : Bool)
    (a : Option (List Attribute)) (rest : List StructField) :
    countSpreads (.pair k ty o a :: rest) = countSpreads rest := by
  simp [countSpreads, List.countP_cons]

/-- A spread field increases the spread count by one. -/
theorem countSpreads_cons_spread (ty : Schema) (rest : List StructField) :
    countSpreads (.spread ty :: rest) = countSpreads rest + 1 := by
  simp [countSpreads, List.countP_cons]

/-- If the field list still contains two spreads (or one spread after one has
already been seen) and every present pair key validates with at most a
catchable error, the struct field loop raises the duplicate-spread
`ValueError`, whatever state it started in. -/
theorem structFieldsGo_dup (vd : Json → Schema → List PathEl → Except Exc Unit)
    (entries : List (String × Json)) (path : List PathEl) :
    ∀ (fields : List StructField) (remaining : List String) (spread : Option Schema)
      (hasSpread : Bool) (errs : List Exc),
      (if hasSpread then 1 else 2) ≤ countSpreads fields →
      pairsOkB vd entries path fields = true →
      structFieldsGo vd entries path fields remaining spread hasSpread errs =
        .error (.valueError (dupSpreadMsg path)) := by
  intro fields
  induction fields with
  | nil =>
    intro remaining spread hasSpread errs hcount _
    cases hasSpread <;> simp [countSpreads] at hcount
  | cons f rest ih =>
    intro remaining spread hasSpread errs hcount hp
    simp only [pairsOkB, List.all_cons, Bool.and_eq_true] at hp
    obtain ⟨hf, hrest⟩ := hp
    cases f with
    | pair key ty opt attrs =>
      have hc : (if hasSpread then 1 else 2) ≤ countSpreads rest := by
        rw [countSpreads_cons_pair] at hcount
        exact hcount
      cases key with
      | schemaKey sk =>
        simp only [structFieldsGo]
        exact ih remaining spread hasSpread errs hc hrest
      | str k =>
        cases hdg : dictGet entries k with
        | none =>
          cases opt with
          | true =>
            simp only [structFieldsGo, hdg, if_true]
            exact ih remaining spread hasSpread errs hc hrest
          | false =>
            simp only [structFieldsGo, hdg, Bool.false_eq_true, if_false]
            exact ih remaining spread hasSpread _ hc hrest
        | some v =>
          have hok : okOrCatchable (vd v ty (path ++ [.key k])) = true := by
            simpa [hdg] using hf
          cases hv : vd v ty (path ++ [.key k]) with
          | ok u =>
            cases u
            simp only [structFieldsGo, hdg, hv]
            exact ih (remaining.erase k) spread hasSpread errs hc hrest
          | error e =>
            have hcat : e.catchable = true := by simpa [okOrCatchable, hv] using hok
            simp only [structFieldsGo, hdg, hv, hcat, if_true]
            exact ih remaining spread hasSpread (errs ++ [e]) hc hrest
    | spread ty =>
      cases hasSpread with
      | true => simp [structFieldsGo]
      | false =>
        have hc : (1 : Nat) ≤ countSpreads rest := by
          have h2 : 2 ≤ countSpreads (StructField.spread ty :: rest) := by simpa using hcount
          rw [countSpreads_cons_spread] at h2
          omega
        simp only [structFieldsGo, Bool.false_eq_true, if_false]
        exact ih remaining (some ty) true errs (by simpa using hc) hrest

/-- C1 counterexample: the claim as stated is false. For the union
`Union[dupSpreadStruct, emptyStruct]` and the document `{}`, the second
member validates the value (first conjunct), yet the union does not validate:
the first member raises the duplicate-spread `ValueError`, which the
union loop's `except (ValidationError, ExceptionGroup)` does not catch, so it
propagates before the validating member is ever tried. -/
theorem C1_counterexample :
    validate_data [] 10 (.obj []) emptyStruct [] = .ok () ∧
    validate_data [] 10 (.obj []) (some (.union [dupSpreadStruct, emptyStruct] none)) [] =
      .error (.valueError (dupSpreadMsg [])) :=
  ⟨rfl, rfl⟩

/-- C1 (amended): if some member schema validates the value and every member
tried before it fails only with an ordinary validation error (a
`ValidationError` or an `ExceptionGroup`, the classes the union loop
catches) or itself succeeds, then the whole union validates with no error,
discarding the errors of the earlier failed members; members are tried in
declaration order and the first success returns immediately. -/
theorem C1_union_first_success (mcdoc : Corpus) (fuel : Nat) (data : Json) (path : List PathEl)
    (attributes : Option (List Attribute)) (pre post : List Schema) (m : Schema)
    (hpre : (pre.all fun x => okOrCatchable (validate_data mcdoc fuel data x path)) = true)
    (hm : validate_data mcdoc fuel data m path = .ok ()) :
    validate_data mcdoc (fuel + 1) data (some (.union (pre ++ m :: post) attributes)) path =
      .ok () := by
  rw [validate_succ_node]
  simp only [runNode]
  exact unionGo_reaches_ok _ _ _ pre m post [] hpre hm

/-- C1 witness: `Union[Int, String]` validating `"abc"` succeeds even though
the `Int` member fails. -/
theorem C1_witness :
    validate_data [] 3 (.s "abc")
      (some (.union [some (.int none none), some (.string none)] none)) [] = .ok () :=
  C1_union_first_success [] 2 (.s "abc") [] none [some (.int none none)] []
    (some (.string none)) (by decide) rfl

/-- C2: the failing input for the claim. `twoFieldStruct` has the two
required `Int` fields `a` and `b`; the document gives both of them strings.
The module-level validator aggregates FOUR errors, not the claimed two: the
two field-level type errors, plus one `Unexpected field` error per invalid
key, because `remaining_keys.discard(field_key)` runs only after the
recursive call succeeds, so each failed key is still treated as unconsumed.
(The sibling `McdocValidator.validate_data` discards the key before
validating and reports exactly the two field errors the claim expects.) -/
theorem C2_struct_error_count :
    validate_data [] 10 (.obj [("a", .s "x"), ("b", .s "y")]) twoFieldStruct [] =
      .error (.group "Multiple errors in struct validation"
        [.vErr "Expected an integer, got str" [.key "a"] "int",
         .vErr "Expected an integer, got str" [.key "b"] "int",
         .vErr "Unexpected field a" [.key "a"] "struct",
         .vErr "Unexpected field b" [.key "b"] "struct"]) :=
  rfl

/-- C3: the failing input for the claim. The corpus holds the registry
`test:entity` with entries for `zombie` and `skeleton`, and the dispatcher
uses the dynamic accessor `["type"]`. Validating a document whose `type` is
`zombie` never applies the zombie schema: extraction succeeds, but the
registry guard `isinstance(resolved.root, dict)` can never hold (the resolver
only returns `Schema` wrappers, whose root is a node or `None`), so the
branch that would look up the key and recurse is dead code and every
dispatcher validation that extracts a key fails with the registry error. The
unknown discriminant `creeper` fails with the same error (so it is true that
it never silently passes, but not with the claimed behaviour for known
keys). -/
theorem C3_dispatcher_registry_dead_end :
    validate_data entityCorpus 10 (.obj [("type", .s "zombie"), ("health", .i 10)])
      entityDispatcher [] =
      .error (.vErr "Registry test:entity must resolve to a Schema whose root is a dictionary of schemas, got NoneType." [] "dispatcher") ∧
    validate_data entityCorpus 10 (.obj [("type", .s "creeper")]) entityDispatcher [] =
      .error (.vErr "Registry test:entity must resolve to a Schema whose root is a dictionary of schemas, got NoneType." [] "dispatcher") :=
  ⟨rfl, rfl⟩

/-- C4: spread absorption. `spreadStruct` is
`Struct(fields: [Pair("a", Int)], spread: String)`. The document
`("a": 1, "b": "x", "c": "y")` validates: each remaining unconsumed key's
value is validated against the spread schema. The document
`("a": 1, "b": 2)` fails with exactly one error, for key `b` against the
`String` spread. -/
theorem C4_spread_absorption :
    validate_data [] 10 (.obj [("a", .i 1), ("b", .s "x"), ("c", .s "y")]) spreadStruct [] =
      .ok () ∧
    validate_data [] 10 (.obj [("a", .i 1), ("b", .i 2)]) spreadStruct [] =
      .error (.group "Multiple errors in struct validation"
        [.vErr "Expected a string, got int" [.key "b"] "string"]) :=
  ⟨rfl, rfl⟩

/-- C5: version pruning. `is_valid_with_attributes` keeps a node or struct
field exactly according to the claim's rule (for every `until` attribute with
string-literal version V the target is strictly below V, and for every
`since` attribute with version V the target is at least V), stated as
equality with `claimKeepRule`, the rule written from the specification text.
Concretely: a struct field tagged `until: "1.20"` is present under target
`"1.19"` and pruned under `"1.21"`, and a field tagged `since: "1.21"` is the
mirror case. -/
theorem C5_version_pruning_rule :
    (∀ (attributes : Option (List Attribute)) (current_version : String),
      is_valid_with_attributes attributes current_version =
        claimKeepRule attributes current_version) ∧
    StructSchema.prune_on_version [untilField] "1.19" = [untilField] ∧
    StructSchema.prune_on_version [untilField] "1.21" = [] ∧
    StructSchema.prune_on_version [sinceField] "1.19" = [] ∧
    StructSchema.prune_on_version [sinceField] "1.21" = [sinceField] := by
  refine ⟨?_, rfl, rfl, rfl, rfl⟩
  intro attributes current_version
  cases attributes with
  | none => rfl
  | some attrs =>
    cases attrs with
    | nil => rfl
    | cons a rest => exact is_valid_go_eq_all current_version (a :: rest)

/-- C6 counterexample: the claim's rule (pad missing trailing components with
zeros before comparing) disagrees with the code. On `"1.1"` versus
`"1.1.0.0"` the rule gives equality, but `compare_versions` pads only up to
two components, so the shorter tuple compares strictly less. -/
theorem C6_counterexample :
    compare_versions "1.1" "1.1.0.0" = -1 ∧ claimCompareRule "1.1" "1.1.0.0" = 0 := by
  exact ⟨by decide, by decide⟩

/-- C6 (amended): version comparison is numeric on dot-separated components,
left-to-right, with the epoch discarded, but missing trailing components are
padded with a single zero only up to two components; whenever that padding
leaves the two component lists with equal lengths (in particular whenever the
two versions have the same number of components, or both have at most two
after the epoch), the code agrees with the claim's pad-to-common-length rule,
and in particular `"1.21"` and `"1.21.0"` compare equal. Beyond that, a
strictly shorter component list with an equal prefix compares less even when
the extra components are all zero. -/
theorem C6_compare_versions_amended :
    (∀ v1 v2 : String,
      (padTo2 ((versionComponents v1).drop 1)).length =
        (padTo2 ((versionComponents v2).drop 1)).length →
      compare_versions v1 v2 = claimCompareRule v1 v2) ∧
    compare_versions "1.21" "1.21.0" = 0 := by
  constructor
  · intro v1 v2 h
    have := padTo2_cmp_eq_claim ((versionComponents v1).drop 1)
      ((versionComponents v2).drop 1) h
    simpa [compare_versions, claimCompareRule] using this
  · decide

/-- C6 witness: the amended rule applied at `"1.21"` and `"1.21.0"`. -/
theorem C6_witness :
    compare_versions "1.21" "1.21.0" = claimCompareRule "1.21" "1.21.0" :=
  C6_compare_versions_amended.1 "1.21" "1.21.0" (by decide)

/-- C7: the failing inputs for the claim. For a reference path absent from
the corpus, `resolve_schema_reference` raises `KeyError` out to its caller
(the handler evaluates `json.dumps(mcdoc[path])`, raising `KeyError` again),
and `get_mcdoc_schema` / `get_dispatcher_schema` raise `NameError` (their
handlers read the never-bound `data`). Only the present-but-wrong-shape case
fails soft with the dummy `Absent` schema, as the last two conjuncts show. -/
theorem C7_resolver_throws_on_missing_path :
    resolve_schema_reference [] "test:missing" = .error .keyError ∧
    get_mcdoc_schema ⟨[], []⟩ "test:missing" = .error .nameError ∧
    get_dispatcher_schema ⟨[], []⟩ "test:missing" = .error .nameError ∧
    resolve_schema_reference [("test:bad", .malformed)] "test:bad" = .ok none ∧
    get_mcdoc_schema ⟨[("test:bad", .malformed)], []⟩ "test:bad" = .ok none :=
  ⟨rfl, rfl, rfl, rfl, rfl⟩

/-- C8: the failing input for the claim. Validating ANY non-empty list
against an `IntArray` or `FloatArray` schema raises `TypeError`: the per-item
guard calls `isinstance(item)` with a single argument, which raises before
any comparison, and `TypeError` is not among the caught exception classes.
So an all-int list fails an `IntArray` (first conjunct, with a crash rather
than a validation error), no per-element errors are ever collected, and only
the empty list passes (third conjunct). -/
theorem C8_array_crashes_on_items :
    validate_data [] 10 (.arr [.i 1]) (some (.int_array none none)) [] = .error .typeError ∧
    validate_data [] 10 (.arr [.f 1]) (some (.float_array none none)) [] = .error .typeError ∧
    validate_data [] 10 (.arr []) (some (.int_array none none)) [] = .ok () :=
  ⟨rfl, rfl, rfl⟩

/-- C9 counterexample: the claim as stated is false. For a struct schema with
two spread fields and the non-dict document `5`, validation raises the
ordinary data-level type `ValidationError`, not the schema-definition
`ValueError`: the dict check precedes the field loop, so the schema error is
not independent of the supplied data. -/
theorem C9_counterexample :
    validate_data [] 10 (.i 5) dupSpreadStruct [] =
      .error (.vErr "Expected a dictionary, got int" [] "struct") :=
  rfl

/-- C9 (amended): for every struct schema containing two (or more) spread
fields and every map-like (dict) document value whose present named-field
values validate with at most ordinary catchable validation errors, validation
raises the duplicate-spread `ValueError` - a channel distinct from the
aggregated data-error tree (no `except (ValidationError, ExceptionGroup)`
catches it), raised from inside the field loop before any aggregated error
is produced. For non-dict data a plain type-mismatch error is raised first
instead. -/
theorem C9_duplicate_spread_amended (mcdoc : Corpus) (fuel : Nat)
    (entries : List (String × Json)) (path : List PathEl)
    (attributes : Option (List Attribute)) (fields : List StructField)
    (hdup : 2 ≤ countSpreads fields)
    (hpairs : pairsOkB (fun d s p => validate_data mcdoc fuel d s p) entries path fields = true) :
    validate_data mcdoc (fuel + 1) (.obj entries) (some (.struct fields attributes)) path =
      .error (.valueError (dupSpreadMsg path)) := by
  rw [validate_succ_node]
  simp only [runNode]
  rw [structFieldsGo_dup _ entries path fields (entries.map Prod.fst) none false [] hdup hpairs]

/-- C9 witness: the amended claim at the two-spread struct and the dict
document `("x": 1)`. -/
theorem C9_witness :
    validate_data [] 3 (.obj [("x", .i 1)]) dupSpreadStruct [] =
      .error (.valueError (dupSpreadMsg [])) :=
  C9_duplicate_spread_amended [] 2 [("x", .i 1)] [] none dupFields (by decide) (by decide)

/-- C10 counterexample: the claim as stated is false. `prunedMember` is a
union member whose root was version-pruned to `None` by
`Schema.prune_on_version` (first conjunct). The union
`Union[dupSpreadStruct, prunedMember]` does NOT accept the document `{}`:
the member before the pruned one raises the duplicate-spread `ValueError`,
which the union loop does not catch, so an error IS raised despite the
pruned member. -/
theorem C10_counterexample :
    prunedMember = none ∧
    validate_data [] 10 (.obj []) (some (.union [dupSpreadStruct, prunedMember] none)) [] =
      .error (.valueError (dupSpreadMsg [])) :=
  ⟨rfl, rfl⟩

/-- C10 (amended): a union containing a member whose root was pruned to
`None` accepts every document value PROVIDED every member tried before the
pruned one succeeds or fails only with a catchable validation error: the
pruned member validates vacuously and the union short-circuits on it. In
particular a union whose first member is pruned accepts everything. -/
theorem C10_pruned_union_member (mcdoc : Corpus) (fuel : Nat) (data : Json)
    (path : List PathEl) (attributes : Option (List Attribute)) (pre post : List Schema)
    (hpre : (pre.all fun x => okOrCatchable (validate_data mcdoc fuel data x path)) = true) :
    validate_data mcdoc (fuel + 1) data (some (.union (pre ++ none :: post) attributes)) path =
      .ok () := by
  rw [validate_succ_node]
  simp only [runNode]
  exact unionGo_reaches_ok _ _ _ pre none post [] hpre (validate_none mcdoc fuel data path)

/-- C10 witness: the amended claim at a union whose failing `Int` member
precedes the pruned member, validating the string document `"hello"`. -/
theorem C10_witness :
    validate_data [] 3 (.s "hello")
      (some (.union [some (.int none none), none, some (.string none)] none)) [] = .ok () :=
  C10_pruned_union_member [] 2 (.s "hello") [] none [some (.int none none)]
    [some (.string none)] (by decide)
